import Mathlib

/-!
Verification of the staged-edit dialog logic in `tartube/config.py`.

The module implements configuration dialog windows.  Edit windows stage
changes in a pending-changes dictionary `self.edit_dict` and apply them to
the edited object `self.edit_obj` only on explicit confirmation; preference
windows apply each change immediately to the global application object.

We embed the relevant data model and callbacks shallowly: Python values
become the inductive `Val`, Python dictionaries (objects' attribute
dictionaries, `edit_dict`, `options_dict`) become association lists with
update-in-place-or-append semantics, and fallible constructs (a `setattr`
call, name resolution) return `Except PyErr`.
-/

set_option autoImplicit false

namespace Tartube

/-- A Python value, as far as this module's dialogs stage and retrieve:
strings, integers, booleans, lists and tuples of strings (the only
compound values the callbacks build, via `text.split()`), and `None`. -/
inductive Val where
  | str : String → Val
  | int : Int → Val
  | bool : Bool → Val
  | list : List String → Val
  | tuple : List String → Val
  | none : Val
deriving DecidableEq, Repr

/-- A Python exception raised by code in this module. -/
inductive PyErr where
  | typeError : String → PyErr
  | nameError : String → PyErr
  | attributeError : String → PyErr
deriving DecidableEq, Repr

/-- A Python dictionary (also an object's attribute dictionary):
an association list whose keys are kept unique by `Dict.set`. -/
abbrev Dict : Type := List (String × Val)

/-- The empty dictionary `{}`. -/
def Dict.empty : Dict := []

/-- `d[k]` as a partial lookup: the value at the first occurrence of `k`. -/
def Dict.lookup : Dict → String → Option Val
  | [], _ => Option.none
  | (k', v') :: rest, k => if k' = k then some v' else Dict.lookup rest k

/-- `k in d`: membership test of Python's `in` on a dictionary. -/
def Dict.contains (d : Dict) (k : String) : Bool :=
  (Dict.lookup d k).isSome

/-- `d[k] = v`: update the first occurrence of `k` in place,
or append a new entry when `k` is absent. -/
def Dict.set : Dict → String → Val → Dict
  | [], k, v => [(k, v)]
  | (k', v') :: rest, k, v =>
      if k' = k then (k, v) :: rest else (k', v') :: Dict.set rest k v

/-- `d.keys()` in iteration order. -/
def Dict.keys (d : Dict) : List String :=
  d.map Prod.fst

theorem Dict.lookup_set (d : Dict) (k k' : String) (v : Val) :
    Dict.lookup (Dict.set d k v) k' =
      if k' = k then some v else Dict.lookup d k' := by
  induction d with
  | nil =>
      by_cases h : k' = k
      · subst h; simp [Dict.set, Dict.lookup]
      · simp [Dict.set, Dict.lookup, h, Ne.symm h]
  | cons hd tl ih =>
      obtain ⟨k₀, v₀⟩ := hd
      by_cases h₀ : k₀ = k
      · subst h₀
        by_cases h : k' = k₀
        · subst h; simp [Dict.set, Dict.lookup]
        · simp [Dict.set, Dict.lookup, h, Ne.symm h]
      · by_cases h₁ : k₀ = k'
        · subst h₁
          simp [Dict.set, Dict.lookup, h₀, ih]
        · simp [Dict.set, Dict.lookup, h₀, h₁, ih]

@[simp] theorem Dict.lookup_set_self (d : Dict) (k : String) (v : Val) :
    Dict.lookup (Dict.set d k v) k = some v := by
  simp [Dict.lookup_set]

theorem Dict.lookup_set_ne (d : Dict) (k k' : String) (v : Val) (h : k' ≠ k) :
    Dict.lookup (Dict.set d k v) k' = Dict.lookup d k' := by
  simp [Dict.lookup_set, h]

/-- `getattr(obj, name)` on an object modelled by its attribute
dictionary: the attribute's value, or `AttributeError` when absent. -/
def getattr (obj : Dict) (name : String) : Except PyErr Val :=
  match Dict.lookup obj name with
  | some v => Except.ok v
  | Option.none => Except.error (PyErr.attributeError name)

/-- The interpreter's message for a `setattr` call with the wrong number
of arguments. -/
def setattrArityMsg (got : Nat) : String :=
  "setattr expected 3 arguments, got " ++ toString got

/-- Python's builtin `setattr` applied to an object and the remaining
positional arguments.  It requires exactly three arguments in total
(object, attribute name, value): any other count raises `TypeError`,
as does a non-string attribute name. -/
def setattrCall (obj : Dict) (args : List Val) : Except PyErr Dict :=
  match args with
  | [Val.str n, v] => Except.ok (Dict.set obj n v)
  | [_, _] => Except.error (PyErr.typeError "attribute name must be string")
  | _ => Except.error (PyErr.typeError (setattrArityMsg (args.length + 1)))

/-- The state of a `GenericEditWin`: the edited object `self.edit_obj`
(as its attribute dictionary) and the pending-changes dictionary
`self.edit_dict`. -/
structure GenericEditWin where
  edit_obj : Dict
  edit_dict : Dict
deriving DecidableEq, Repr

namespace GenericEditWin

/-- `GenericEditWin.retrieve_val` (config.py:348-376): the staged value
when `name` is a key of `self.edit_dict`, otherwise
`getattr(self.edit_obj, name)`. -/
def retrieve_val (w : GenericEditWin) (name : String) : Except PyErr Val :=
  match Dict.lookup w.edit_dict name with
  | some v => Except.ok v
  | Option.none => getattr w.edit_obj name

/-- The loop body of `GenericEditWin.apply_changes` over
`self.edit_dict.keys()`.  Each iteration executes
`setattr(self.edit_obj, self.edit_dict[key])` — a two-argument call
(the `key` argument is missing from the source). -/
def applyChangesLoop (ed : Dict) : List String → Dict → Except PyErr Dict
  | [], obj => Except.ok obj
  | k :: rest, obj =>
      match Dict.lookup ed k with
      | some v => do
          let obj' ← setattrCall obj [v]
          applyChangesLoop ed rest obj'
      | Option.none => Except.error (PyErr.attributeError k)

/-- `GenericEditWin.apply_changes` (config.py:290-304): iterate over the
keys of `self.edit_dict`, calling `setattr(self.edit_obj,
self.edit_dict[key])`, then set `self.edit_dict = {}`. -/
def apply_changes (w : GenericEditWin) : Except PyErr GenericEditWin := do
  let obj' ← applyChangesLoop w.edit_dict (Dict.keys w.edit_dict) w.edit_obj
  Except.ok { edit_obj := obj', edit_dict := Dict.empty }

/-- `GenericEditWin.on_button_ok_clicked` (config.py:929-945): apply any
changes, then destroy the window.  The boolean records that the window
was destroyed. -/
def on_button_ok_clicked (w : GenericEditWin) :
    Except PyErr (GenericEditWin × Bool) := do
  let w' ← w.apply_changes
  Except.ok (w', true)

/-- `GenericEditWin.on_button_reset_clicked` (config.py:948-975): empty
`self.edit_dict`; the notebook redraw and `show_all` touch only widgets. -/
def on_button_reset_clicked (w : GenericEditWin) : GenericEditWin :=
  { w with edit_dict := Dict.empty }

/-- `GenericEditWin.reset_with_new_edit_obj` (config.py:307-345): replace
`self.edit_obj` with the given object and empty `self.edit_dict`; the
rest of the function redraws widgets. -/
def reset_with_new_edit_obj (w : GenericEditWin) (new_edit_obj : Dict) :
    GenericEditWin :=
  { w with edit_obj := new_edit_obj, edit_dict := Dict.empty }

/-- `GenericEditWin.on_checkbutton_toggled` (config.py:978-996): store
`False` under `prop` when the checkbutton is not active, `True` when it
is. -/
def on_checkbutton_toggled (w : GenericEditWin) (active : Bool)
    (prop : String) : GenericEditWin :=
  if !active then
    { w with edit_dict := Dict.set w.edit_dict prop (Val.bool false) }
  else
    { w with edit_dict := Dict.set w.edit_dict prop (Val.bool true) }

/-- `GenericEditWin.on_combo_changed` (config.py:999-1015): store the
selected row's first column under `prop`. -/
def on_combo_changed (w : GenericEditWin) (selected : Val)
    (prop : String) : GenericEditWin :=
  { w with edit_dict := Dict.set w.edit_dict prop selected }

/-- `GenericEditWin.on_entry_changed` (config.py:1038-1052): store the
entry's text under `prop`. -/
def on_entry_changed (w : GenericEditWin) (text : String)
    (prop : String) : GenericEditWin :=
  { w with edit_dict := Dict.set w.edit_dict prop (Val.str text) }

/-- The local names bound in the body of
`GenericEditWin.on_radiobutton_toggled`: the parameters are `self`,
`checkbutton`, `prop` and `value` (config.py:1055). -/
def onRadiobuttonToggledLocals : List String :=
  ["self", "checkbutton", "prop", "value"]

/-- Resolution of a bare name against the local scope; an unbound name
raises `NameError`. -/
def loadName (locals : List String) (n : String) : Except PyErr Unit :=
  if n ∈ locals then Except.ok () else Except.error (PyErr.nameError n)

/-- `GenericEditWin.on_radiobutton_toggled` (config.py:1055-1073): the
body tests `radiobutton.get_active()`, but the parameter is named
`checkbutton`, so evaluating the name `radiobutton` is the first step
of the body. -/
def on_radiobutton_toggled (w : GenericEditWin) (active : Bool)
    (prop : String) (value : Val) : Except PyErr GenericEditWin := do
  let _ ← loadName onRadiobuttonToggledLocals "radiobutton"
  if active then
    Except.ok { w with edit_dict := Dict.set w.edit_dict prop value }
  else
    Except.ok w

/-- `GenericEditWin.on_spinbutton_changed` (config.py:1076-1090): store
`int(spinbutton.get_value())` under `prop`. -/
def on_spinbutton_changed (w : GenericEditWin) (n : Int)
    (prop : String) : GenericEditWin :=
  { w with edit_dict := Dict.set w.edit_dict prop (Val.int n) }

/-- `text.split()`: split on spaces, dropping empty pieces. -/
def pySplit (text : String) : List String :=
  (text.splitOn " ").filter (· ≠ "")

/-- `GenericEditWin.on_textview_changed` (config.py:1092-1121): read the
buffer's text, retrieve the old value of `prop`, and store the text
split into words when the old value is a list or tuple, the raw text
otherwise. -/
def on_textview_changed (w : GenericEditWin) (text : String)
    (prop : String) : Except PyErr GenericEditWin := do
  let old_value ← w.retrieve_val prop
  match old_value with
  | Val.list _ =>
      Except.ok
        { w with edit_dict := Dict.set w.edit_dict prop (Val.list (pySplit text)) }
  | Val.tuple _ =>
      Except.ok
        { w with edit_dict := Dict.set w.edit_dict prop (Val.list (pySplit text)) }
  | _ =>
      Except.ok { w with edit_dict := Dict.set w.edit_dict prop (Val.str text) }

end GenericEditWin

/-- A widget-change event in an edit window, carrying the widget's new
contents and the bound property name, for the five staging callbacks of
`GenericEditWin`. -/
inductive EditEvent where
  | checkbutton (active : Bool) (prop : String)
  | combo (selected : Val) (prop : String)
  | entry (text : String) (prop : String)
  | spinbutton (n : Int) (prop : String)
  | textview (text : String) (prop : String)
deriving DecidableEq, Repr

/-- Dispatch of a widget-change event to its callback. -/
def stepEvent (w : GenericEditWin) : EditEvent → Except PyErr GenericEditWin
  | EditEvent.checkbutton active prop =>
      Except.ok (w.on_checkbutton_toggled active prop)
  | EditEvent.combo selected prop => Except.ok (w.on_combo_changed selected prop)
  | EditEvent.entry text prop => Except.ok (w.on_entry_changed text prop)
  | EditEvent.spinbutton n prop => Except.ok (w.on_spinbutton_changed n prop)
  | EditEvent.textview text prop => w.on_textview_changed text prop

/-- The window state after one event: an exception in a handler
propagates to the GTK main loop, leaving the state as modified so far
(none of these handlers writes before its first fallible step). -/
def runEvent (w : GenericEditWin) (e : EditEvent) : GenericEditWin :=
  match stepEvent w e with
  | Except.ok w' => w'
  | Except.error _ => w

/-- The window state after a sequence of widget-change events. -/
def runEvents : GenericEditWin → List EditEvent → GenericEditWin
  | w, [] => w
  | w, e :: es => runEvents (runEvent w e) es

/-- The global application object, as far as these dialogs' claims need
it: one of its flags and the value its error reporter returns. -/
structure AppObj where
  allow_ytdl_archive_flag : Bool
  system_error_result : Val
deriving DecidableEq, Repr

/-- Modelled from the spec: `mainapp.TartubeApp.set_allow_ytdl_archive_flag`
is not under `src/`; per the spec, preference-window changes are "applied
immediately to global application state", so the setter stores the given
flag on the application object. -/
def AppObj.set_allow_ytdl_archive_flag (app : AppObj) (flag : Bool) : AppObj :=
  { app with allow_ytdl_archive_flag := flag }

/-- Modelled from the spec: `mainapp.TartubeApp.system_error` is not under
`src/`; it reports the numbered error message and its result is what the
caller returns.  We record the call's code and message as a trace and
return the application object's fixed result value. -/
def AppObj.system_error (app : AppObj) (code : Nat) (msg : String) :
    Val × List (Nat × String) :=
  (app.system_error_result, [(code, msg)])

namespace GenericPrefWin

/-- `GenericPrefWin.on_button_ok_clicked` (config.py:1754-1767): destroy
the window, and nothing else — the returned application object is the
one passed in, and the boolean records that the window was destroyed. -/
def on_button_ok_clicked (app : AppObj) : AppObj × Bool :=
  (app, true)

end GenericPrefWin

namespace SystemPrefWin

/-- `SystemPrefWin.on_archive_button_toggled` (config.py:6511-6529): when
the checkbutton is active and the flag is unset, set it; when inactive
and the flag is set, clear it. -/
def on_archive_button_toggled (app : AppObj) (active : Bool) : AppObj :=
  if active && !app.allow_ytdl_archive_flag then
    app.set_allow_ytdl_archive_flag true
  else if !active && app.allow_ytdl_archive_flag then
    app.set_allow_ytdl_archive_flag false
  else
    app

end SystemPrefWin

/-- Modelled from the spec: `options.OptionsManager` is not under `src/`;
the glossary describes it as "an external object ... holding a mapping of
download-tool configuration keys to values" — the mapping is
`options_dict`, and `attrs` stands for the manager's other attributes. -/
structure OptionsManager where
  options_dict : Dict
  attrs : Dict
deriving DecidableEq, Repr

/-- The state of an `OptionsEditWin`: the edited `options.OptionsManager`
`self.edit_obj` and the pending-changes dictionary `self.edit_dict`. -/
structure OptionsEditWin where
  edit_obj : OptionsManager
  edit_dict : Dict
deriving DecidableEq, Repr

namespace OptionsEditWin

/-- The loop of `OptionsEditWin.apply_changes` over
`self.edit_dict.keys()`: each iteration executes
`self.edit_obj.options_dict[key] = self.edit_dict[key]`. -/
def applyLoop (ed : Dict) : List String → Dict → Except PyErr Dict
  | [], target => Except.ok target
  | k :: ks, target =>
      match Dict.lookup ed k with
      | some v => applyLoop ed ks (Dict.set target k v)
      | Option.none => Except.error (PyErr.attributeError k)

/-- `OptionsEditWin.apply_changes` (config.py:1884-1902): copy every
pending entry into `self.edit_obj.options_dict`, then set
`self.edit_dict = {}`. -/
def apply_changes (w : OptionsEditWin) : Except PyErr OptionsEditWin := do
  let od ← applyLoop w.edit_dict (Dict.keys w.edit_dict) w.edit_obj.options_dict
  Except.ok
    { edit_obj := { w.edit_obj with options_dict := od },
      edit_dict := Dict.empty }

/-- `OptionsEditWin.retrieve_val` (config.py:1905-1939): the staged value
when `name` is a key of `self.edit_dict`, else the value in
`self.edit_obj.options_dict`, else the result of
`self.app_obj.system_error(404, ...)`.  The second component traces the
`system_error` calls made. -/
def retrieve_val (app : AppObj) (w : OptionsEditWin) (name : String) :
    Val × List (Nat × String) :=
  match Dict.lookup w.edit_dict name with
  | some v => (v, [])
  | Option.none =>
      match Dict.lookup w.edit_obj.options_dict name with
      | some v => (v, [])
      | Option.none =>
          app.system_error 404
            ("Unrecognised property name \x27" ++ name ++ "\x27")

/-- Staging one pending change, `self.edit_dict[prop] = value`, as the
Formats-tab handlers do. -/
def setEdit (w : OptionsEditWin) (prop : String) (value : Val) :
    OptionsEditWin :=
  { w with edit_dict := Dict.set w.edit_dict prop value }

/-- The value a Formats-tab handler sees for a slot:
`self.retrieve_val(name)`. -/
def visible (app : AppObj) (w : OptionsEditWin) (name : String) : Val :=
  (retrieve_val app w name).1

/-- `OptionsEditWin.on_formats_tab_add_clicked` (config.py:3686-3760),
restricted to its effect on `self.edit_dict`: reject a format already
present, otherwise store it in the first of the three slots whose
retrieved value is `'0'`.  `extract_code` is the code of the format
selected in the left-hand treeview. -/
def on_formats_tab_add_clicked (app : AppObj) (w : OptionsEditWin)
    (extract_code : Val) : OptionsEditWin :=
  let val1 := visible app w "video_format"
  let val2 := visible app w "second_video_format"
  let val3 := visible app w "third_video_format"
  if extract_code = val1 ∨ extract_code = val2 ∨ extract_code = val3 then w
  else if val1 = Val.str "0" then setEdit w "video_format" extract_code
  else if val2 = Val.str "0" then setEdit w "second_video_format" extract_code
  else if val3 = Val.str "0" then setEdit w "third_video_format" extract_code
  else w

/-- `OptionsEditWin.on_formats_tab_down_clicked` (config.py:3763-3819),
restricted to its effect on `self.edit_dict`: nothing when the selected
format's code equals the third slot; otherwise swap it with the next
slot when it equals the second or the first slot. -/
def on_formats_tab_down_clicked (app : AppObj) (w : OptionsEditWin)
    (extract_code : Val) : OptionsEditWin :=
  let val1 := visible app w "video_format"
  let val2 := visible app w "second_video_format"
  let val3 := visible app w "third_video_format"
  if extract_code = val3 then w
  else if extract_code = val2 then
    setEdit (setEdit w "second_video_format" val3) "third_video_format" val2
  else if extract_code = val1 then
    setEdit (setEdit w "video_format" val2) "second_video_format" val1
  else w

/-- `OptionsEditWin.on_formats_tab_remove_clicked` (config.py:3822-3892),
restricted to its effect on `self.edit_dict`: shift the slots after the
selected format's slot one place left and set the third slot to `'0'`. -/
def on_formats_tab_remove_clicked (app : AppObj) (w : OptionsEditWin)
    (extract_code : Val) : OptionsEditWin :=
  let val1 := visible app w "video_format"
  let val2 := visible app w "second_video_format"
  let val3 := visible app w "third_video_format"
  if extract_code = val1 then
    setEdit
      (setEdit (setEdit w "video_format" val2) "second_video_format" val3)
      "third_video_format" (Val.str "0")
  else if extract_code = val2 then
    setEdit (setEdit w "second_video_format" val3) "third_video_format"
      (Val.str "0")
  else if extract_code = val3 then
    setEdit w "third_video_format" (Val.str "0")
  else w

/-- `OptionsEditWin.on_formats_tab_up_clicked` (config.py:3895-3951),
restricted to its effect on `self.edit_dict`: nothing when the selected
format's code equals the first slot; otherwise swap it with the
previous slot when it equals the second or the third slot. -/
def on_formats_tab_up_clicked (app : AppObj) (w : OptionsEditWin)
    (extract_code : Val) : OptionsEditWin :=
  let val1 := visible app w "video_format"
  let val2 := visible app w "second_video_format"
  let val3 := visible app w "third_video_format"
  if extract_code = val1 then w
  else if extract_code = val2 then
    setEdit (setEdit w "video_format" val2) "second_video_format" val1
  else if extract_code = val3 then
    setEdit (setEdit w "second_video_format" val3) "third_video_format" val2
  else w

/-- The three video-format slots as the window shows them. -/
def formatTriple (app : AppObj) (w : OptionsEditWin) : Val × Val × Val :=
  (visible app w "video_format", visible app w "second_video_format",
    visible app w "third_video_format")

end OptionsEditWin

/-- The three slots are packed left-to-right: once a slot holds `'0'`,
every later slot holds `'0'`. -/
def Packed (t : Val × Val × Val) : Prop :=
  (t.1 = Val.str "0" → t.2.1 = Val.str "0") ∧
    (t.2.1 = Val.str "0" → t.2.2 = Val.str "0")

instance (t : Val × Val × Val) : Decidable (Packed t) := by
  unfold Packed; infer_instance

/-! ### Theorems -/

@[simp] theorem except_bind_ok {α β γ : Type} (a : α) (f : α → Except γ β) :
    (Except.ok a >>= f : Except γ β) = f a := rfl

@[simp] theorem except_bind_error {α β γ : Type} (e : γ)
    (f : α → Except γ β) :
    (Except.error e >>= f : Except γ β) = Except.error e := rfl

theorem setattrCall_one (obj : Dict) (v : Val) :
    setattrCall obj [v] =
      Except.error (PyErr.typeError (setattrArityMsg 2)) := by
  cases v <;> rfl

/-- An edit window with one staged change, for concrete evaluation. -/
def c1Win : GenericEditWin :=
  { edit_obj := [("name", Val.str "old")],
    edit_dict := [("name", Val.str "x")] }

/-- C1: the claim says clicking OK or Apply copies every pending entry of
`self.edit_dict` onto `self.edit_obj` and empties the mapping; in fact
`GenericEditWin.apply_changes` executes the two-argument call
`setattr(self.edit_obj, self.edit_dict[key])`, so on any non-empty
`edit_dict` the first iteration raises `TypeError` and neither the
attribute assignment nor the clearing happens. -/
theorem apply_changes_raises_c1 (w : GenericEditWin) (k : String) (v : Val)
    (rest : Dict) (h : w.edit_dict = (k, v) :: rest) :
    GenericEditWin.apply_changes w =
      Except.error (PyErr.typeError (setattrArityMsg 2)) ∧
    GenericEditWin.on_button_ok_clicked w =
      Except.error (PyErr.typeError (setattrArityMsg 2)) := by
  have h1 : GenericEditWin.apply_changes w =
      Except.error (PyErr.typeError (setattrArityMsg 2)) := by
    unfold GenericEditWin.apply_changes
    rw [h]
    simp [Dict.keys, GenericEditWin.applyChangesLoop, Dict.lookup,
      setattrCall_one]
  refine ⟨h1, ?_⟩
  unfold GenericEditWin.on_button_ok_clicked
  rw [h1]
  rfl

/-- Witness for C1: a window with `edit_dict = {'name': 'x'}` raises. -/
theorem apply_changes_raises_c1_witness :
    GenericEditWin.apply_changes c1Win =
      Except.error (PyErr.typeError (setattrArityMsg 2)) :=
  (apply_changes_raises_c1 c1Win "name" (Val.str "x") [] rfl).1

/-- C2: the claim says `on_radiobutton_toggled` stores `value` under
`prop` when the button is active, does nothing when inactive, and never
raises; in fact the body reads the unbound name `radiobutton` (the
parameter is `checkbutton`), so every call raises `NameError` and the
pending-changes mapping is never written. -/
theorem on_radiobutton_toggled_raises_c2 (w : GenericEditWin) (active : Bool)
    (prop : String) (value : Val) :
    GenericEditWin.on_radiobutton_toggled w active prop value =
      Except.error (PyErr.nameError "radiobutton") := by
  cases active <;> rfl

/-- C3: every sequence of staging callbacks (checkbutton, combo, entry,
spinbutton, textview) leaves the edited object `self.edit_obj` entirely
unchanged: only `self.edit_dict` is written. -/
theorem edit_callbacks_frame_c3 (evs : List EditEvent) :
    ∀ w : GenericEditWin, (runEvents w evs).edit_obj = w.edit_obj := by
  have hstep : ∀ (w : GenericEditWin) (e : EditEvent),
      (runEvent w e).edit_obj = w.edit_obj := by
    intro w e
    cases e with
    | checkbutton active prop => cases active <;> rfl
    | combo selected prop => rfl
    | entry text prop => rfl
    | spinbutton n prop => rfl
    | textview text prop =>
        unfold runEvent stepEvent GenericEditWin.on_textview_changed
        cases h : GenericEditWin.retrieve_val w prop with
        | ok v => cases v <;> simp [h]
        | error e => simp [h]
  induction evs with
  | nil => intro w; rfl
  | cons e es ih =>
      intro w
      have : runEvents w (e :: es) = runEvents (runEvent w e) es := rfl
      rw [this, ih (runEvent w e), hstep]

/-- An edit window with a staged string and an untouched attribute. -/
def c4Win : GenericEditWin :=
  { edit_obj := [("b", Val.bool true)], edit_dict := [("a", Val.str "1")] }

/-- C4: `GenericEditWin.retrieve_val` returns the staged value when the
name is a key of `self.edit_dict` and otherwise the object's attribute
value; staging a value (here via `on_combo_changed`, which stores its
argument unchanged) and retrieving it yields exactly the staged value. -/
theorem retrieve_val_c4 (w : GenericEditWin) (name : String) (v : Val) :
    (Dict.lookup w.edit_dict name = some v →
      GenericEditWin.retrieve_val w name = Except.ok v) ∧
    (Dict.lookup w.edit_dict name = Option.none →
      GenericEditWin.retrieve_val w name = getattr w.edit_obj name) ∧
    (∀ u : GenericEditWin, ∀ x : Val,
      GenericEditWin.retrieve_val (u.on_combo_changed x name) name =
        Except.ok x) := by
  refine ⟨fun h => ?_, fun h => ?_, fun u x => ?_⟩
  · unfold GenericEditWin.retrieve_val
    rw [h]
  · unfold GenericEditWin.retrieve_val
    rw [h]
  · unfold GenericEditWin.retrieve_val GenericEditWin.on_combo_changed
    simp [Dict.lookup_set_self]

/-- Witness for C4 on a concrete window: the staged key, an unstaged
key, and a staged-then-retrieved round trip. -/
theorem retrieve_val_c4_witness :
    GenericEditWin.retrieve_val c4Win "a" = Except.ok (Val.str "1") ∧
    GenericEditWin.retrieve_val c4Win "b" = getattr c4Win.edit_obj "b" ∧
    GenericEditWin.retrieve_val (c4Win.on_combo_changed (Val.int 5) "c") "c" =
      Except.ok (Val.int 5) :=
  ⟨(retrieve_val_c4 c4Win "a" (Val.str "1")).1 (by decide),
    (retrieve_val_c4 c4Win "b" (Val.str "1")).2.1 (by decide),
    (retrieve_val_c4 c4Win "c" (Val.str "1")).2.2 c4Win (Val.int 5)⟩

/-- C5: the discard branch — clicking Reset, or
`reset_with_new_edit_obj` — empties `self.edit_dict` without applying
any entry: after Reset the object reference is unchanged, and in both
cases every subsequent `retrieve_val` reads straight from the current
object's attributes. -/
theorem reset_discards_c5 (w : GenericEditWin) (o : Dict) (name : String) :
    (GenericEditWin.on_button_reset_clicked w).edit_dict = Dict.empty ∧
    (GenericEditWin.on_button_reset_clicked w).edit_obj = w.edit_obj ∧
    GenericEditWin.retrieve_val (GenericEditWin.on_button_reset_clicked w)
        name = getattr w.edit_obj name ∧
    (GenericEditWin.reset_with_new_edit_obj w o).edit_dict = Dict.empty ∧
    (GenericEditWin.reset_with_new_edit_obj w o).edit_obj = o ∧
    GenericEditWin.retrieve_val (GenericEditWin.reset_with_new_edit_obj w o)
        name = getattr o name :=
  ⟨rfl, rfl, rfl, rfl, rfl, rfl⟩

/-- C6: in a preference window the change callback applies its value to
the application object at the moment the widget changes (the archive
checkbutton's flag always equals the button state afterwards), and the
OK button only destroys the window, changing nothing. -/
theorem pref_win_immediate_c6 (app : AppObj) (active : Bool) :
    (SystemPrefWin.on_archive_button_toggled app active).allow_ytdl_archive_flag
        = active ∧
    GenericPrefWin.on_button_ok_clicked app = (app, true) := by
  refine ⟨?_, rfl⟩
  cases active <;> cases h : app.allow_ytdl_archive_flag <;>
    simp [SystemPrefWin.on_archive_button_toggled,
      AppObj.set_allow_ytdl_archive_flag, h]

/-- C8: the checkbutton toggle callback stores exactly `True` under the
bound property when the button is active and exactly `False` when it is
not, so the staged flag always agrees with the checkbox state. -/
theorem checkbutton_stores_state_c8 (w : GenericEditWin) (active : Bool)
    (prop : String) :
    Dict.lookup (w.on_checkbutton_toggled active prop).edit_dict prop =
      some (Val.bool active) ∧
    GenericEditWin.retrieve_val (w.on_checkbutton_toggled active prop) prop =
      Except.ok (Val.bool active) := by
  cases active <;>
    simp [GenericEditWin.on_checkbutton_toggled, GenericEditWin.retrieve_val,
      Dict.lookup_set_self]

theorem Dict.mem_keys_iff_lookup_isSome (d : Dict) (k : String) :
    k ∈ Dict.keys d ↔ (Dict.lookup d k).isSome := by
  induction d with
  | nil => simp [Dict.keys, Dict.lookup]
  | cons hd tl ih =>
      obtain ⟨k₀, v₀⟩ := hd
      by_cases h₀ : k₀ = k
      · subst h₀; simp [Dict.keys, Dict.lookup]
      · rw [show Dict.keys ((k₀, v₀) :: tl) = k₀ :: Dict.keys tl from rfl,
          List.mem_cons, ih]
        simp [Dict.lookup, h₀, Ne.symm h₀]

theorem applyLoop_eq (ed : Dict) (ks : List String) (t : Dict)
    (hks : ∀ j ∈ ks, (Dict.lookup ed j).isSome) :
    ∃ t', OptionsEditWin.applyLoop ed ks t = Except.ok t' ∧
      ∀ k, Dict.lookup t' k =
        if k ∈ ks then Dict.lookup ed k else Dict.lookup t k := by
  induction ks generalizing t with
  | nil => exact ⟨t, rfl, fun k => by simp⟩
  | cons j ks ih =>
      have hj : (Dict.lookup ed j).isSome := hks j (List.mem_cons_self j ks)
      obtain ⟨v, hv⟩ := Option.isSome_iff_exists.mp hj
      obtain ⟨t', ht', hlook⟩ :=
        ih (Dict.set t j v) (fun x hx => hks x (List.mem_cons_of_mem j hx))
      refine ⟨t', ?_, ?_⟩
      · unfold OptionsEditWin.applyLoop
        rw [hv]
        exact ht'
      · intro k
        rw [hlook k, Dict.lookup_set]
        by_cases hk : k ∈ ks
        · simp [hk, List.mem_cons]
        · by_cases hkj : k = j
          · subst hkj
            simp [hk, hv]
          · simp [hk, hkj, List.mem_cons]

/-- A download-options window with two staged changes, one overwriting
an existing option and one new, plus an untouched option and attribute. -/
def c7Win : OptionsEditWin :=
  { edit_obj :=
      { options_dict := [("format", Val.str "18"), ("keep", Val.bool true)],
        attrs := [("uid", Val.int 1)] },
    edit_dict := [("format", Val.str "22"), ("new_opt", Val.str "x")] }

/-- The window `c7Win` after clicking Apply. -/
def c7WinAfter : OptionsEditWin :=
  { edit_obj :=
      { options_dict :=
          [("format", Val.str "22"), ("keep", Val.bool true),
            ("new_opt", Val.str "x")],
        attrs := [("uid", Val.int 1)] },
    edit_dict := [] }

/-- C7: `OptionsEditWin.apply_changes` copies every key-value pair of
`self.edit_dict` into `self.edit_obj.options_dict`, leaves every other
option and every other attribute of the options manager unchanged, and
then empties `self.edit_dict`. -/
theorem options_apply_changes_c7 (w : OptionsEditWin) :
    ∃ w', OptionsEditWin.apply_changes w = Except.ok w' ∧
      w'.edit_dict = Dict.empty ∧
      w'.edit_obj.attrs = w.edit_obj.attrs ∧
      (∀ k v, Dict.lookup w.edit_dict k = some v →
        Dict.lookup w'.edit_obj.options_dict k = some v) ∧
      (∀ k, Dict.lookup w.edit_dict k = Option.none →
        Dict.lookup w'.edit_obj.options_dict k =
          Dict.lookup w.edit_obj.options_dict k) := by
  obtain ⟨t', ht', hlook⟩ :=
    applyLoop_eq w.edit_dict (Dict.keys w.edit_dict) w.edit_obj.options_dict
      (fun j hj => (Dict.mem_keys_iff_lookup_isSome _ _).mp hj)
  refine ⟨⟨⟨t', w.edit_obj.attrs⟩, Dict.empty⟩, ?_, rfl, rfl, ?_, ?_⟩
  · unfold OptionsEditWin.apply_changes
    rw [ht']
    rfl
  · intro k v hkv
    have hmem : k ∈ Dict.keys w.edit_dict :=
      (Dict.mem_keys_iff_lookup_isSome _ _).mpr (by rw [hkv]; rfl)
    rw [hlook k]
    simp [hmem, hkv]
  · intro k hk
    have hmem : k ∉ Dict.keys w.edit_dict := by
      intro hmem
      have := (Dict.mem_keys_iff_lookup_isSome _ _).mp hmem
      rw [hk] at this
      simp at this
    rw [hlook k]
    simp [hmem]

/-- Witness for C7: applying the staged changes of `c7Win` succeeds,
overwrites `format`, keeps `keep`, and clears the pending mapping. -/
theorem options_apply_changes_c7_witness :
    OptionsEditWin.apply_changes c7Win = Except.ok c7WinAfter ∧
    c7WinAfter.edit_dict = Dict.empty ∧
    Dict.lookup c7WinAfter.edit_obj.options_dict "format" =
      some (Val.str "22") ∧
    Dict.lookup c7WinAfter.edit_obj.options_dict "keep" =
      some (Val.bool true) := by
  obtain ⟨w', h1, h2, h3, h4, h5⟩ := options_apply_changes_c7 c7Win
  have hw : w' = c7WinAfter := by
    have h6 : OptionsEditWin.apply_changes c7Win = Except.ok c7WinAfter := by
      rfl
    rw [h1] at h6
    exact (Except.ok.injEq _ _).mp h6
  subst hw
  refine ⟨h1, h2, h4 "format" (Val.str "22") (by decide), ?_⟩
  rw [h5 "keep" (by decide)]
  decide

theorem visible_setEdit (app : AppObj) (w : OptionsEditWin) (k k' : String)
    (v : Val) :
    OptionsEditWin.visible app (OptionsEditWin.setEdit w k v) k' =
      if k' = k then v else OptionsEditWin.visible app w k' := by
  unfold OptionsEditWin.visible OptionsEditWin.retrieve_val OptionsEditWin.setEdit
  simp only [Dict.lookup_set]
  by_cases h : k' = k
  · simp [h]
  · simp [h]

theorem slots_ne₁ : ("second_video_format" : String) ≠ "video_format" := by
  decide

theorem slots_ne₂ : ("third_video_format" : String) ≠ "video_format" := by
  decide

theorem slots_ne₃ : ("video_format" : String) ≠ "second_video_format" := by
  decide

theorem slots_ne₄ : ("third_video_format" : String) ≠ "second_video_format" := by
  decide

theorem slots_ne₅ : ("video_format" : String) ≠ "third_video_format" := by
  decide

theorem slots_ne₆ : ("second_video_format" : String) ≠ "third_video_format" := by
  decide

theorem add_packed (app : AppObj) (w : OptionsEditWin) (c : Val)
    (hc : c ≠ Val.str "0")
    (hp : Packed (OptionsEditWin.formatTriple app w)) :
    Packed (OptionsEditWin.formatTriple app
      (OptionsEditWin.on_formats_tab_add_clicked app w c)) := by
  obtain ⟨hp1, hp2⟩ := hp
  unfold OptionsEditWin.on_formats_tab_add_clicked
  dsimp only
  split_ifs with h₁ h₂ h₃ h₄
  · exact ⟨hp1, hp2⟩
  · have ht : OptionsEditWin.formatTriple app
        (OptionsEditWin.setEdit w "video_format" c) =
        (c, OptionsEditWin.visible app w "second_video_format",
          OptionsEditWin.visible app w "third_video_format") := by
      simp [OptionsEditWin.formatTriple, visible_setEdit, slots_ne₁,
        slots_ne₂, slots_ne₃, slots_ne₄, slots_ne₅, slots_ne₆]
    rw [ht]
    exact ⟨fun h => absurd h hc, hp2⟩
  · have ht : OptionsEditWin.formatTriple app
        (OptionsEditWin.setEdit w "second_video_format" c) =
        (OptionsEditWin.visible app w "video_format", c,
          OptionsEditWin.visible app w "third_video_format") := by
      simp [OptionsEditWin.formatTriple, visible_setEdit, slots_ne₁,
        slots_ne₂, slots_ne₃, slots_ne₄, slots_ne₅, slots_ne₆]
    rw [ht]
    exact ⟨fun h => absurd h h₂, fun h => absurd h hc⟩
  · have ht : OptionsEditWin.formatTriple app
        (OptionsEditWin.setEdit w "third_video_format" c) =
        (OptionsEditWin.visible app w "video_format",
          OptionsEditWin.visible app w "second_video_format", c) := by
      simp [OptionsEditWin.formatTriple, visible_setEdit, slots_ne₁,
        slots_ne₂, slots_ne₃, slots_ne₄, slots_ne₅, slots_ne₆]
    rw [ht]
    exact ⟨fun h => absurd h h₂, fun h => absurd h h₃⟩
  · exact ⟨hp1, hp2⟩

theorem remove_packed (app : AppObj) (w : OptionsEditWin) (c : Val)
    (hp : Packed (OptionsEditWin.formatTriple app w)) :
    Packed (OptionsEditWin.formatTriple app
      (OptionsEditWin.on_formats_tab_remove_clicked app w c)) := by
  obtain ⟨hp1, hp2⟩ := hp
  unfold OptionsEditWin.on_formats_tab_remove_clicked
  dsimp only
  split_ifs with h₁ h₂ h₃
  · have ht : OptionsEditWin.formatTriple app
        (OptionsEditWin.setEdit
          (OptionsEditWin.setEdit
            (OptionsEditWin.setEdit w "video_format"
              (OptionsEditWin.visible app w "second_video_format"))
            "second_video_format"
            (OptionsEditWin.visible app w "third_video_format"))
          "third_video_format" (Val.str "0")) =
        (OptionsEditWin.visible app w "second_video_format",
          OptionsEditWin.visible app w "third_video_format", Val.str "0") := by
      simp [OptionsEditWin.formatTriple, visible_setEdit, slots_ne₁,
        slots_ne₂, slots_ne₃, slots_ne₄, slots_ne₅, slots_ne₆]
    rw [ht]
    exact ⟨hp2, fun _ => rfl⟩
  · have ht : OptionsEditWin.formatTriple app
        (OptionsEditWin.setEdit
          (OptionsEditWin.setEdit w "second_video_format"
            (OptionsEditWin.visible app w "third_video_format"))
          "third_video_format" (Val.str "0")) =
        (OptionsEditWin.visible app w "video_format",
          OptionsEditWin.visible app w "third_video_format", Val.str "0") := by
      simp [OptionsEditWin.formatTriple, visible_setEdit, slots_ne₁,
        slots_ne₂, slots_ne₃, slots_ne₄, slots_ne₅, slots_ne₆]
    rw [ht]
    exact ⟨fun h => hp2 (hp1 h), fun _ => rfl⟩
  · have ht : OptionsEditWin.formatTriple app
        (OptionsEditWin.setEdit w "third_video_format" (Val.str "0")) =
        (OptionsEditWin.visible app w "video_format",
          OptionsEditWin.visible app w "second_video_format", Val.str "0") := by
      simp [OptionsEditWin.formatTriple, visible_setEdit, slots_ne₁,
        slots_ne₂, slots_ne₃, slots_ne₄, slots_ne₅, slots_ne₆]
    rw [ht]
    exact ⟨hp1, fun _ => rfl⟩
  · exact ⟨hp1, hp2⟩

theorem up_packed (app : AppObj) (w : OptionsEditWin) (c : Val)
    (hc : c ≠ Val.str "0")
    (hp : Packed (OptionsEditWin.formatTriple app w)) :
    Packed (OptionsEditWin.formatTriple app
      (OptionsEditWin.on_formats_tab_up_clicked app w c)) := by
  obtain ⟨hp1, hp2⟩ := hp
  unfold OptionsEditWin.on_formats_tab_up_clicked
  dsimp only
  split_ifs with h₁ h₂ h₃
  · exact ⟨hp1, hp2⟩
  · have ht : OptionsEditWin.formatTriple app
        (OptionsEditWin.setEdit
          (OptionsEditWin.setEdit w "video_format"
            (OptionsEditWin.visible app w "second_video_format"))
          "second_video_format" (OptionsEditWin.visible app w "video_format")) =
        (OptionsEditWin.visible app w "second_video_format",
          OptionsEditWin.visible app w "video_format",
          OptionsEditWin.visible app w "third_video_format") := by
      simp [OptionsEditWin.formatTriple, visible_setEdit, slots_ne₁,
        slots_ne₂, slots_ne₃, slots_ne₄, slots_ne₅, slots_ne₆]
    rw [ht]
    exact ⟨fun h => absurd (h₂.trans h) hc,
      fun h => absurd (h₂.trans (hp1 h)) hc⟩
  · have ht : OptionsEditWin.formatTriple app
        (OptionsEditWin.setEdit
          (OptionsEditWin.setEdit w "second_video_format"
            (OptionsEditWin.visible app w "third_video_format"))
          "third_video_format"
          (OptionsEditWin.visible app w "second_video_format")) =
        (OptionsEditWin.visible app w "video_format",
          OptionsEditWin.visible app w "third_video_format",
          OptionsEditWin.visible app w "second_video_format") := by
      simp [OptionsEditWin.formatTriple, visible_setEdit, slots_ne₁,
        slots_ne₂, slots_ne₃, slots_ne₄, slots_ne₅, slots_ne₆]
    rw [ht]
    exact ⟨fun h => hp2 (hp1 h), fun h => absurd (h₃.trans h) hc⟩
  · exact ⟨hp1, hp2⟩

theorem down_packed (app : AppObj) (w : OptionsEditWin) (c : Val)
    (hc : c ≠ Val.str "0")
    (hp : Packed (OptionsEditWin.formatTriple app w))
    (hd2 : c = (OptionsEditWin.formatTriple app w).2.1 →
      (OptionsEditWin.formatTriple app w).2.2 ≠ Val.str "0")
    (hd1 : c = (OptionsEditWin.formatTriple app w).1 →
      (OptionsEditWin.formatTriple app w).2.1 ≠ Val.str "0") :
    Packed (OptionsEditWin.formatTriple app
      (OptionsEditWin.on_formats_tab_down_clicked app w c)) := by
  obtain ⟨hp1, hp2⟩ := hp
  unfold OptionsEditWin.on_formats_tab_down_clicked
  dsimp only
  split_ifs with h₁ h₂ h₃
  · exact ⟨hp1, hp2⟩
  · have ht : OptionsEditWin.formatTriple app
        (OptionsEditWin.setEdit
          (OptionsEditWin.setEdit w "second_video_format"
            (OptionsEditWin.visible app w "third_video_format"))
          "third_video_format"
          (OptionsEditWin.visible app w "second_video_format")) =
        (OptionsEditWin.visible app w "video_format",
          OptionsEditWin.visible app w "third_video_format",
          OptionsEditWin.visible app w "second_video_format") := by
      simp [OptionsEditWin.formatTriple, visible_setEdit, slots_ne₁,
        slots_ne₂, slots_ne₃, slots_ne₄, slots_ne₅, slots_ne₆]
    rw [ht]
    exact ⟨fun h => absurd (h₂.trans (hp1 h)) hc, fun h => absurd h (hd2 h₂)⟩
  · have ht : OptionsEditWin.formatTriple app
        (OptionsEditWin.setEdit
          (OptionsEditWin.setEdit w "video_format"
            (OptionsEditWin.visible app w "second_video_format"))
          "second_video_format" (OptionsEditWin.visible app w "video_format")) =
        (OptionsEditWin.visible app w "second_video_format",
          OptionsEditWin.visible app w "video_format",
          OptionsEditWin.visible app w "third_video_format") := by
      simp [OptionsEditWin.formatTriple, visible_setEdit, slots_ne₁,
        slots_ne₂, slots_ne₃, slots_ne₄, slots_ne₅, slots_ne₆]
    rw [ht]
    exact ⟨fun h => absurd h (hd1 h₃), fun h => absurd (h₃.trans h) hc⟩
  · exact ⟨hp1, hp2⟩

/-- A concrete application object for the Formats-tab claims. -/
def c9App : AppObj :=
  { allow_ytdl_archive_flag := false, system_error_result := Val.none }

/-- A download-options window whose three format slots are packed, with
the third slot empty: formats `18` and `17` are set. -/
def c9Win : OptionsEditWin :=
  { edit_obj :=
      { options_dict :=
          [("video_format", Val.str "18"),
            ("second_video_format", Val.str "17"),
            ("third_video_format", Val.str "0")],
        attrs := [] },
    edit_dict := [] }

/-- A download-options window with all three format slots filled. -/
def c9FullWin : OptionsEditWin :=
  { edit_obj :=
      { options_dict :=
          [("video_format", Val.str "18"),
            ("second_video_format", Val.str "17"),
            ("third_video_format", Val.str "136")],
        attrs := [] },
    edit_dict := [] }

/-- C9 (amended): from a packed state and a selected format code other
than `'0'`, the Formats-tab add, remove and up handlers keep the three
slots packed; the down handler keeps them packed provided the slot after
the selected format's slot is occupied (when the selected format is the
last non-`'0'` slot and an empty slot follows, down swaps it past the
empty slot and packing is lost). -/
theorem formats_tab_packed_c9 (app : AppObj) (w : OptionsEditWin) (c : Val)
    (hc : c ≠ Val.str "0")
    (hp : Packed (OptionsEditWin.formatTriple app w)) :
    Packed (OptionsEditWin.formatTriple app
      (OptionsEditWin.on_formats_tab_add_clicked app w c)) ∧
    Packed (OptionsEditWin.formatTriple app
      (OptionsEditWin.on_formats_tab_remove_clicked app w c)) ∧
    Packed (OptionsEditWin.formatTriple app
      (OptionsEditWin.on_formats_tab_up_clicked app w c)) ∧
    ((c = (OptionsEditWin.formatTriple app w).2.1 →
        (OptionsEditWin.formatTriple app w).2.2 ≠ Val.str "0") →
      (c = (OptionsEditWin.formatTriple app w).1 →
        (OptionsEditWin.formatTriple app w).2.1 ≠ Val.str "0") →
      Packed (OptionsEditWin.formatTriple app
        (OptionsEditWin.on_formats_tab_down_clicked app w c))) :=
  ⟨add_packed app w c hc hp, remove_packed app w c hp,
    up_packed app w c hc hp,
    fun hd2 hd1 => down_packed app w c hc hp hd2 hd1⟩

/-- Witness for C9: with all three slots filled, each of the four
operations keeps the slots packed for the selected format `17`. -/
theorem formats_tab_packed_c9_witness :
    Packed (OptionsEditWin.formatTriple c9App
      (OptionsEditWin.on_formats_tab_add_clicked c9App c9FullWin
        (Val.str "17"))) ∧
    Packed (OptionsEditWin.formatTriple c9App
      (OptionsEditWin.on_formats_tab_remove_clicked c9App c9FullWin
        (Val.str "17"))) ∧
    Packed (OptionsEditWin.formatTriple c9App
      (OptionsEditWin.on_formats_tab_up_clicked c9App c9FullWin
        (Val.str "17"))) ∧
    Packed (OptionsEditWin.formatTriple c9App
      (OptionsEditWin.on_formats_tab_down_clicked c9App c9FullWin
        (Val.str "17"))) := by
  obtain ⟨h1, h2, h3, h4⟩ := formats_tab_packed_c9 c9App c9FullWin
    (Val.str "17") (by decide) (by decide)
  exact ⟨h1, h2, h3,
    h4 (fun _ => by decide) (fun h => absurd h (by decide))⟩

/-- C9 counterexample: the claim as stated fails — from the packed state
`('18', '17', '0')`, selecting `17` and clicking down stages
`('18', '0', '17')`, which is not packed: the down handler only refuses
to move the format in the third slot, so the last non-`'0'` format can
be swapped past an empty slot. -/
theorem formats_tab_down_unpacked_c9 :
    Packed (OptionsEditWin.formatTriple c9App c9Win) ∧
    OptionsEditWin.formatTriple c9App
        (OptionsEditWin.on_formats_tab_down_clicked c9App c9Win
          (Val.str "17")) =
      (Val.str "18", Val.str "0", Val.str "17") ∧
    ¬ Packed (OptionsEditWin.formatTriple c9App
        (OptionsEditWin.on_formats_tab_down_clicked c9App c9Win
          (Val.str "17"))) :=
  ⟨by decide, by decide, by decide⟩

/-- A concrete application object whose `system_error` returns `None`. -/
def c10App : AppObj :=
  { allow_ytdl_archive_flag := false, system_error_result := Val.none }

/-- A download-options window with no pending changes and one option. -/
def c10Win : OptionsEditWin :=
  { edit_obj := { options_dict := [("format", Val.str "18")], attrs := [] },
    edit_dict := [] }

/-- C10: `OptionsEditWin.retrieve_val` on a name that is a key of
neither `self.edit_dict` nor `self.edit_obj.options_dict` reports system
error 404 with the message `Unrecognised property name '<name>'` via
`app_obj.system_error` and returns that call's result. -/
theorem options_retrieve_unknown_c10 (app : AppObj) (w : OptionsEditWin)
    (name : String) (h1 : Dict.lookup w.edit_dict name = Option.none)
    (h2 : Dict.lookup w.edit_obj.options_dict name = Option.none) :
    OptionsEditWin.retrieve_val app w name =
      (app.system_error_result,
        [(404, "Unrecognised property name \x27" ++ name ++ "\x27")]) := by
  unfold OptionsEditWin.retrieve_val
  rw [h1, h2]
  rfl

/-- Witness for C10: the unknown name `bogus` on a concrete window. -/
theorem options_retrieve_unknown_c10_witness :
    OptionsEditWin.retrieve_val c10App c10Win "bogus" =
      (Val.none, [(404, "Unrecognised property name \x27bogus\x27")]) := by
  have h := options_retrieve_unknown_c10 c10App c10Win "bogus" (by decide)
    (by decide)
  rw [h]
  rfl

end Tartube
